import Mathlib

/-!
# RSA sign / verify wrappers of opensslpp

A shallow embedding of `extra/opensslpp/src/opensslpp/rsa_sign_verify_operations.cpp`.

The two functions of that file call into the cryptography library and into the
`rsa_key` / `core_error` classes.  The library is a parameter of the embedding
(`Library`); its process-wide error queue is explicit state (`World`), threaded
through every call.  A C++ call either trips its `assert`, throws a `core_error`
or returns a value (`Outcome`).
-/

namespace opensslpp

/-- One character of a `std::string` / one `unsigned char` of a buffer. -/
abbrev Byte := Fin 256

/-- Conversion of a `std::size_t` (or of a stored value) to the C type
`unsigned int`, 32 bits wide. -/
def unsigned_int (n : Nat) : Nat := n % 2 ^ 32

/-- What a NUL-terminated C string reader sees of `s.c_str()`: the characters
before the first NUL character. -/
def c_str (s : String) : String :=
  String.mk (s.data.takeWhile (fun c => c.toNat != 0))

/-- The observable interface of the class `rsa_key` used by the two functions:
`is_empty()`, `is_private()`, `get_size_in_bytes()` and the native key handle
obtained through `rsa_key_accessor::get_impl_const_casted`. -/
structure rsa_key where
  /-- The result of `key.is_empty()`. -/
  is_empty : Bool
  /-- The result of `key.is_private()`. -/
  is_private : Bool
  /-- The result of `key.get_size_in_bytes()`. -/
  get_size_in_bytes : Nat
  /-- The native `RSA *` handle. -/
  impl : Nat
deriving DecidableEq, Repr

/-- The exception type `core_error`.  `message` is the text given by the
thrower; `error_string` is the library diagnostic string incorporated into the
message by `core_error::raise_with_error_string` (absent for a plain
`throw core_error{...}`). -/
structure core_error where
  /-- Text supplied at the throw site. -/
  message : String
  /-- Library diagnostic combined with the text, if any. -/
  error_string : Option String
deriving DecidableEq, Repr

/-- How a call ends. -/
inductive Outcome (α : Type) where
  /-- An `assert` of the function failed. -/
  | assertion_failed : Outcome α
  /-- The call threw. -/
  | thrown : core_error → Outcome α
  /-- The call returned. -/
  | returned : α → Outcome α
deriving DecidableEq, Repr

/-- The library primitives whose invocations are recorded. -/
inductive primitive_call where
  /-- A call of `RSA_sign`. -/
  | RSA_sign : primitive_call
  /-- A call of `RSA_verify`. -/
  | RSA_verify : primitive_call
deriving DecidableEq, Repr

/-- The state shared between calls: the library error queue (oldest entry
first) and the record of primitive invocations made so far. -/
structure World where
  /-- The library error queue, as seen by `ERR_peek_error`. -/
  err_queue : List Nat
  /-- Primitive invocations, in order. -/
  calls : List primitive_call
deriving DecidableEq, Repr

/-- Everything `RSA_sign` hands back: its `int` return value, the contents of
the output buffer `sigret` after the call, the value it left in `*siglen`, and
the error queue after the call. -/
structure sign_result where
  /-- The `int` returned. -/
  status : Int
  /-- Contents of the output buffer after the call. -/
  sigret : List Byte
  /-- Value stored through the `siglen` pointer. -/
  siglen : Nat
  /-- Error queue after the call. -/
  err_queue : List Nat
deriving DecidableEq, Repr

/-- Everything `RSA_verify` hands back: its `int` return value and the error
queue after the call. -/
structure verify_result where
  /-- The `int` returned. -/
  status : Int
  /-- Error queue after the call. -/
  err_queue : List Nat
deriving DecidableEq, Repr

/-- The cryptography library the wrappers call into.  Digest descriptors
(`const EVP_MD *`) and native keys (`RSA *`) are handles; the name lookup and
`EVP_MD_type` are pure; the two RSA primitives read and rewrite the error
queue. -/
structure Library where
  /-- Lookup of a digest by name; `none` is the null pointer. -/
  EVP_get_digestbyname : String → Option Nat
  /-- The NID of a digest descriptor. -/
  EVP_MD_type : Nat → Int
  /-- The primitive `RSA_sign type m m_length sigret rsa`, run on an error queue. -/
  RSA_sign : Int → List Byte → Nat → List Byte → Nat → List Nat → sign_result
  /-- The primitive `RSA_verify type m m_length sigbuf siglen rsa`, run on an
  error queue. -/
  RSA_verify : Int → List Byte → Nat → List Byte → Nat → Nat → List Nat → verify_result
  /-- The diagnostic string the library renders for the errors in its queue. -/
  ERR_error_string : List Nat → String

/-- The call `RSA_sign(...)`: runs the primitive on the current error queue and
records the invocation. -/
def invoke_RSA_sign (L : Library) (type : Int) (m : List Byte) (m_length : Nat)
    (sigret : List Byte) (rsa : Nat) (w : World) : sign_result × World :=
  let r := L.RSA_sign type m m_length sigret rsa w.err_queue
  (r, { err_queue := r.err_queue, calls := w.calls ++ [primitive_call.RSA_sign] })

/-- The call `RSA_verify(...)`: runs the primitive on the current error queue
and records the invocation. -/
def invoke_RSA_verify (L : Library) (type : Int) (m : List Byte) (m_length : Nat)
    (sigbuf : List Byte) (siglen : Nat) (rsa : Nat) (w : World) : verify_result × World :=
  let r := L.RSA_verify type m m_length sigbuf siglen rsa w.err_queue
  (r, { err_queue := r.err_queue, calls := w.calls ++ [primitive_call.RSA_verify] })

/-- Modelled from the spec: the library call `ERR_clear_error()` (the library is
not among the sources); the spec describes the error queue as clearable, and
clearing leaves it empty. -/
def ERR_clear_error (w : World) : World :=
  { w with err_queue := [] }

/-- Modelled from the spec: `core_error::raise_with_error_string` (its
definition, in `core_error.cpp`, is not among the sources).  It never returns:
it throws a `core_error` whose message incorporates the library diagnostic
string.  The spec does not say what the helper does to the error queue; the
model leaves the queue as it is. -/
def raise_with_error_string {α : Type} (L : Library) (msg : String) (w : World) :
    Outcome α × World :=
  (Outcome.thrown { message := msg, error_string := some (L.ERR_error_string w.err_queue) }, w)

/-- The member `std::string::resize(n)`: keeps the first `n` characters, or
appends NUL characters up to length `n`. -/
def resize (s : List Byte) (n : Nat) : List Byte :=
  s.take n ++ List.replicate (n - s.length) 0

/-- The function `sign_with_rsa_private_key(digest_type, digest_data, key)`. -/
def sign_with_rsa_private_key (L : Library) (digest_type : String)
    (digest_data : List Byte) (key : rsa_key) (w : World) :
    Outcome (List Byte) × World :=
  if key.is_empty then (Outcome.assertion_failed, w)
  else if !key.is_private then
    (Outcome.thrown { message := "RSA key does not have private components",
                      error_string := none }, w)
  else
    match L.EVP_get_digestbyname (c_str digest_type) with
    | none => (Outcome.thrown { message := "unknown digest name", error_string := none }, w)
    | some md =>
      let md_nid := L.EVP_MD_type md
      let res : List Byte := List.replicate key.get_size_in_bytes 0
      let call := invoke_RSA_sign L md_nid digest_data (unsigned_int digest_data.length)
        res key.impl w
      let sign_status := call.1.status
      let signature_length := unsigned_int call.1.siglen
      if sign_status ≠ 1 then
        raise_with_error_string L
          "cannot sign message digest with the specified private RSA key" call.2
      else (Outcome.returned (resize call.1.sigret signature_length), call.2)

/-- The function
`verify_with_rsa_public_key(digest_type, digest_data, signature_data, key)`. -/
def verify_with_rsa_public_key (L : Library) (digest_type : String)
    (digest_data : List Byte) (signature_data : List Byte) (key : rsa_key) (w : World) :
    Outcome Bool × World :=
  if key.is_empty then (Outcome.assertion_failed, w)
  else
    match L.EVP_get_digestbyname (c_str digest_type) with
    | none => (Outcome.thrown { message := "unknown digest name", error_string := none }, w)
    | some md =>
      let md_nid := L.EVP_MD_type md
      let call := invoke_RSA_verify L md_nid digest_data (unsigned_int digest_data.length)
        signature_data (unsigned_int signature_data.length) key.impl w
      let verify_status := call.1.status
      let w2 := if verify_status = 0 then ERR_clear_error call.2 else call.2
      (Outcome.returned (decide (verify_status = 1)), w2)

/-! ## Library contracts used by some of the theorems -/

/-- Modelled from the spec: the output-buffer contract of the signing primitive
(the library is not among the sources).  The spec calls the key's byte length
"an upper bound for RSA signatures" and has the primitive produce "signature
bytes and exact length": a successful `RSA_sign` leaves the output buffer its
size and reports a length (read back as an `unsigned int`) of at most the size
of the buffer it was handed. -/
def RSA_sign_within_buffer (L : Library) : Prop :=
  ∀ (type : Int) (m : List Byte) (m_length : Nat) (sigret : List Byte) (rsa : Nat)
    (q : List Nat),
    (L.RSA_sign type m m_length sigret rsa q).status = 1 →
      (L.RSA_sign type m m_length sigret rsa q).sigret.length = sigret.length ∧
      unsigned_int (L.RSA_sign type m m_length sigret rsa q).siglen ≤ sigret.length

/-- Modelled from the spec: the return-value contract of the verification
primitive (the library is not among the sources).  The spec has the primitive
signal "invalid signature" and "internal error during verification" with the
same return value, zero, and the comment in `verify_with_rsa_public_key` says
"in both cases 0 is returned": `RSA_verify` reports 1 for a successful
verification and 0 for every failure. -/
def RSA_verify_reports_0_or_1 (L : Library) : Prop :=
  ∀ (type : Int) (m : List Byte) (m_length : Nat) (sigbuf : List Byte) (siglen : Nat)
    (rsa : Nat) (q : List Nat),
    (L.RSA_verify type m m_length sigbuf siglen rsa q).status = 0 ∨
      (L.RSA_verify type m m_length sigbuf siglen rsa q).status = 1

/-! ## Concrete libraries and keys for the examples -/

/-- The signature the stub library produces: `n` copies of the first digest
byte. -/
def stub_signature (m : List Byte) (n : Nat) : List Byte :=
  List.replicate n (m.headD 0)

/-- A small well-behaved library.  It knows the digest "SHA256" (NID 672),
signs 32-byte digests under the native key 1 by filling the whole output
buffer, and verifies under the native keys 1 and 2.  Failures push the error
code 67108983 and report 0. -/
def stub_library : Library where
  EVP_get_digestbyname := fun s => if s = "SHA256" then some 1 else none
  EVP_MD_type := fun _ => 672
  RSA_sign := fun _ m m_length sigret rsa q =>
    if m_length = 32 ∧ rsa = 1 then
      { status := 1, sigret := stub_signature m sigret.length,
        siglen := sigret.length, err_queue := q }
    else
      { status := 0, sigret := sigret, siglen := 0, err_queue := q ++ [67108983] }
  RSA_verify := fun _ m m_length sigbuf siglen rsa q =>
    if m_length = 32 ∧ (rsa = 1 ∨ rsa = 2) ∧ sigbuf.take siglen = stub_signature m siglen then
      { status := 1, err_queue := q }
    else
      { status := 0, err_queue := q ++ [67108983] }
  ERR_error_string := fun q => if q = [] then "" else "error:04000077"

/-- A 4-byte key with private components, native key 1. -/
def private_key : rsa_key :=
  { is_empty := false, is_private := true, get_size_in_bytes := 4, impl := 1 }

/-- The public-only counterpart of `private_key`, native key 2. -/
def public_key : rsa_key :=
  { is_empty := false, is_private := false, get_size_in_bytes := 4, impl := 2 }

/-- A 32-byte digest. -/
def sample_digest : List Byte := List.replicate 32 185

/-- An initial state with an empty error queue. -/
def clean_world : World := { err_queue := [], calls := [] }

/-- An initial state whose error queue already holds an entry. -/
def dirty_world : World := { err_queue := [5], calls := [] }

theorem unsigned_int_le (n : Nat) : unsigned_int n ≤ n :=
  Nat.mod_le n (2 ^ 32)

theorem length_resize (s : List Byte) (n : Nat) : (resize s n).length = n := by
  simp only [resize, List.length_append, List.length_take, List.length_replicate]
  omega

theorem resize_of_le (s : List Byte) (n : Nat) (h : n ≤ s.length) :
    resize s n = s.take n := by
  simp [resize, Nat.sub_eq_zero_of_le h]

/-- What a returning call of `sign_with_rsa_private_key` went through: the key
passed both checks, the name resolved, the primitive reported 1, and the result
and final state are those computed from the primitive's output. -/
theorem sign_returned_inv (L : Library) (digest_type : String) (digest_data : List Byte)
    (key : rsa_key) (w : World) (sig : List Byte) (w1 : World)
    (hret : sign_with_rsa_private_key L digest_type digest_data key w =
      (Outcome.returned sig, w1)) :
    key.is_empty = false ∧ key.is_private = true ∧
    ∃ md, L.EVP_get_digestbyname (c_str digest_type) = some md ∧
      (L.RSA_sign (L.EVP_MD_type md) digest_data (unsigned_int digest_data.length)
        (List.replicate key.get_size_in_bytes 0) key.impl w.err_queue).status = 1 ∧
      sig = resize
        (L.RSA_sign (L.EVP_MD_type md) digest_data (unsigned_int digest_data.length)
          (List.replicate key.get_size_in_bytes 0) key.impl w.err_queue).sigret
        (unsigned_int (L.RSA_sign (L.EVP_MD_type md) digest_data
          (unsigned_int digest_data.length)
          (List.replicate key.get_size_in_bytes 0) key.impl w.err_queue).siglen) ∧
      w1 = { err_queue := (L.RSA_sign (L.EVP_MD_type md) digest_data
              (unsigned_int digest_data.length)
              (List.replicate key.get_size_in_bytes 0) key.impl w.err_queue).err_queue,
             calls := w.calls ++ [primitive_call.RSA_sign] } := by
  unfold sign_with_rsa_private_key at hret
  cases hempty : key.is_empty
  · cases hpriv : key.is_private
    · simp [hempty, hpriv] at hret
    · refine ⟨rfl, rfl, ?_⟩
      cases hmd : L.EVP_get_digestbyname (c_str digest_type) with
      | none => simp [hempty, hpriv, hmd] at hret
      | some md =>
        refine ⟨md, rfl, ?_⟩
        simp only [hempty, hpriv, hmd, invoke_RSA_sign, raise_with_error_string] at hret
        by_cases hst : (L.RSA_sign (L.EVP_MD_type md) digest_data
            (unsigned_int digest_data.length)
            (List.replicate key.get_size_in_bytes 0) key.impl w.err_queue).status = 1
        · simp [hst] at hret
          exact ⟨hst, hret.1.symm, hret.2.symm⟩
        · simp [hst] at hret
  · simp [hempty] at hret

/-- What a returning call of `verify_with_rsa_public_key` went through: the key
was not empty, the name resolved, and the result and final state are those
computed from the primitive's output. -/
theorem verify_returned_inv (L : Library) (digest_type : String)
    (digest_data signature_data : List Byte) (key : rsa_key) (w : World) (b : Bool)
    (w1 : World)
    (hret : verify_with_rsa_public_key L digest_type digest_data signature_data key w =
      (Outcome.returned b, w1)) :
    key.is_empty = false ∧
    ∃ md, L.EVP_get_digestbyname (c_str digest_type) = some md ∧
      b = decide ((L.RSA_verify (L.EVP_MD_type md) digest_data
        (unsigned_int digest_data.length) signature_data
        (unsigned_int signature_data.length) key.impl w.err_queue).status = 1) ∧
      w1.err_queue =
        (if (L.RSA_verify (L.EVP_MD_type md) digest_data
            (unsigned_int digest_data.length) signature_data
            (unsigned_int signature_data.length) key.impl w.err_queue).status = 0
         then []
         else (L.RSA_verify (L.EVP_MD_type md) digest_data
            (unsigned_int digest_data.length) signature_data
            (unsigned_int signature_data.length) key.impl w.err_queue).err_queue) ∧
      w1.calls = w.calls ++ [primitive_call.RSA_verify] := by
  unfold verify_with_rsa_public_key at hret
  cases hempty : key.is_empty
  · refine ⟨rfl, ?_⟩
    cases hmd : L.EVP_get_digestbyname (c_str digest_type) with
    | none => simp [hempty, hmd] at hret
    | some md =>
      refine ⟨md, rfl, ?_⟩
      simp only [hempty, hmd, invoke_RSA_verify] at hret
      simp at hret
      obtain ⟨hb, hw⟩ := hret
      subst hw
      refine ⟨hb.symm, ?_, ?_⟩
      · split <;> simp [ERR_clear_error]
      · split <;> simp [ERR_clear_error]
  · simp [hempty] at hret

/-- The stub library honours the output-buffer contract. -/
theorem stub_library_within_buffer : RSA_sign_within_buffer stub_library := by
  intro type m m_length sigret rsa q hst
  by_cases h : m_length = 32 ∧ rsa = 1
  · simp [stub_library, h, stub_signature, unsigned_int_le]
  · simp [stub_library, h] at hst

/-- The verification primitive of the stub library reports only 0 or 1. -/
theorem stub_library_verify_0_or_1 : RSA_verify_reports_0_or_1 stub_library := by
  intro type m m_length sigbuf siglen rsa q
  by_cases h : m_length = 32 ∧ (rsa = 1 ∨ rsa = 2) ∧
      sigbuf.take siglen = stub_signature m siglen
  · right
    simp only [stub_library, if_pos h]
  · left
    simp only [stub_library, if_neg h]

/-! ## Theorems -/

/-- C2: for a non-empty key and a digest name that resolves, verification never
throws: it returns a boolean, and that boolean is true exactly when the
verification primitive reports status 1; every other status gives false. -/
theorem verify_returns_true_iff_status_one (L : Library) (digest_type : String)
    (digest_data signature_data : List Byte) (key : rsa_key) (w : World) (md : Nat)
    (hkey : key.is_empty = false)
    (hmd : L.EVP_get_digestbyname (c_str digest_type) = some md) :
    ∃ b : Bool,
      (verify_with_rsa_public_key L digest_type digest_data signature_data key w).1
        = Outcome.returned b ∧
      (b = true ↔
        (L.RSA_verify (L.EVP_MD_type md) digest_data (unsigned_int digest_data.length)
          signature_data (unsigned_int signature_data.length) key.impl w.err_queue).status
          = 1) := by
  refine ⟨decide ((L.RSA_verify (L.EVP_MD_type md) digest_data
    (unsigned_int digest_data.length) signature_data (unsigned_int signature_data.length)
    key.impl w.err_queue).status = 1), ?_, ?_⟩
  · simp [verify_with_rsa_public_key, hkey, hmd, invoke_RSA_verify]
  · simp

/-- Witness of C2 on the stub library: a wrong signature under the public key
gives the result false, with the primitive reporting 0. -/
theorem verify_returns_true_iff_status_one_witness :
    ∃ b : Bool,
      (verify_with_rsa_public_key stub_library "SHA256" sample_digest [1, 2, 3, 4]
        public_key clean_world).1 = Outcome.returned b ∧
      (b = true ↔
        (stub_library.RSA_verify (stub_library.EVP_MD_type 1) sample_digest
          (unsigned_int sample_digest.length) [1, 2, 3, 4]
          (unsigned_int ([1, 2, 3, 4] : List Byte).length) public_key.impl
          clean_world.err_queue).status = 1) :=
  verify_returns_true_iff_status_one stub_library "SHA256" sample_digest [1, 2, 3, 4]
    public_key clean_world 1 (by decide) (by decide)

/-- C3: signing with a non-empty key that has no private components throws the
key-capability error, whatever the digest name and the digest; the state is
untouched, so the signing primitive has not been invoked. -/
theorem sign_public_only_key_throws (L : Library) (digest_type : String)
    (digest_data : List Byte) (key : rsa_key) (w : World)
    (hkey : key.is_empty = false) (hpub : key.is_private = false) :
    sign_with_rsa_private_key L digest_type digest_data key w =
        (Outcome.thrown { message := "RSA key does not have private components",
                          error_string := none }, w) ∧
      (sign_with_rsa_private_key L digest_type digest_data key w).2.calls = w.calls := by
  simp [sign_with_rsa_private_key, hkey, hpub]

/-- Witness of C3 on the stub library with the public-only key. -/
theorem sign_public_only_key_throws_witness :
    sign_with_rsa_private_key stub_library "SHA256" sample_digest public_key clean_world =
        (Outcome.thrown { message := "RSA key does not have private components",
                          error_string := none }, clean_world) ∧
      (sign_with_rsa_private_key stub_library "SHA256" sample_digest public_key
        clean_world).2.calls = clean_world.calls :=
  sign_public_only_key_throws stub_library "SHA256" sample_digest public_key clean_world
    (by decide) (by decide)

/-- C4: verifying with a non-empty key (private or public-only) and a digest
name the lookup does not resolve throws the unknown-digest error, for every
digest and signature; the state is untouched: the error queue is unchanged and
the verification primitive has not been invoked. -/
theorem verify_unknown_digest_throws (L : Library) (digest_type : String)
    (digest_data signature_data : List Byte) (key : rsa_key) (w : World)
    (hkey : key.is_empty = false)
    (hmd : L.EVP_get_digestbyname (c_str digest_type) = none) :
    verify_with_rsa_public_key L digest_type digest_data signature_data key w =
        (Outcome.thrown { message := "unknown digest name", error_string := none }, w) ∧
      (verify_with_rsa_public_key L digest_type digest_data signature_data key w).2.err_queue
        = w.err_queue ∧
      (verify_with_rsa_public_key L digest_type digest_data signature_data key w).2.calls
        = w.calls := by
  simp [verify_with_rsa_public_key, hkey, hmd]

/-- Witness of C4 on the stub library, which does not know "SHA-three", with a
queue that already holds an entry. -/
theorem verify_unknown_digest_throws_witness :
    verify_with_rsa_public_key stub_library "SHA-three" sample_digest [1, 2, 3, 4]
        public_key dirty_world =
        (Outcome.thrown { message := "unknown digest name", error_string := none },
          dirty_world) ∧
      (verify_with_rsa_public_key stub_library "SHA-three" sample_digest [1, 2, 3, 4]
        public_key dirty_world).2.err_queue = dirty_world.err_queue ∧
      (verify_with_rsa_public_key stub_library "SHA-three" sample_digest [1, 2, 3, 4]
        public_key dirty_world).2.calls = dirty_world.calls :=
  verify_unknown_digest_throws stub_library "SHA-three" sample_digest [1, 2, 3, 4]
    public_key dirty_world (by decide) (by decide)

/-- C5, as stated, fails: with the public-only key and a digest name the lookup
does not resolve, signing throws the key-capability error and not the
unknown-digest error. -/
theorem sign_unknown_digest_public_key_counterexample :
    public_key.is_empty = false ∧
      stub_library.EVP_get_digestbyname (c_str "SHA-three") = none ∧
      (sign_with_rsa_private_key stub_library "SHA-three" sample_digest public_key
        clean_world).1 =
        Outcome.thrown { message := "RSA key does not have private components",
                         error_string := none } ∧
      (sign_with_rsa_private_key stub_library "SHA-three" sample_digest public_key
        clean_world).1 ≠
        Outcome.thrown { message := "unknown digest name", error_string := none } := by
  decide

/-- C5, amended: signing with a digest name the lookup does not resolve and a
non-empty key throws the unknown-digest error when the key has private
components, and the key-capability error when it is public-only; either way the
state is untouched. -/
theorem sign_unknown_digest_throws (L : Library) (digest_type : String)
    (digest_data : List Byte) (key : rsa_key) (w : World)
    (hkey : key.is_empty = false)
    (hmd : L.EVP_get_digestbyname (c_str digest_type) = none) :
    sign_with_rsa_private_key L digest_type digest_data key w =
      (Outcome.thrown
        { message := if key.is_private then "unknown digest name"
                     else "RSA key does not have private components",
          error_string := none }, w) := by
  cases hpriv : key.is_private <;> simp [sign_with_rsa_private_key, hkey, hmd, hpriv]

/-- Witness of amended C5 on the stub library with the private key. -/
theorem sign_unknown_digest_throws_witness :
    sign_with_rsa_private_key stub_library "SHA-three" sample_digest private_key
        dirty_world =
      (Outcome.thrown
        { message := if private_key.is_private then "unknown digest name"
                     else "RSA key does not have private components",
          error_string := none }, dirty_world) :=
  sign_unknown_digest_throws stub_library "SHA-three" sample_digest private_key dirty_world
    (by decide) (by decide)

/-- C6: with a non-empty private key and a digest name that resolves, whenever
the signing primitive reports a status other than 1 the call throws the signing
error: its message is "cannot sign message digest with the specified private RSA
key", combined with the diagnostic string of the library for the queue the
primitive left.  The call returns no bytes at all. -/
theorem sign_primitive_failure_throws (L : Library) (digest_type : String)
    (digest_data : List Byte) (key : rsa_key) (w : World) (md : Nat)
    (hkey : key.is_empty = false) (hpriv : key.is_private = true)
    (hmd : L.EVP_get_digestbyname (c_str digest_type) = some md)
    (hstatus : (L.RSA_sign (L.EVP_MD_type md) digest_data (unsigned_int digest_data.length)
      (List.replicate key.get_size_in_bytes 0) key.impl w.err_queue).status ≠ 1) :
    (sign_with_rsa_private_key L digest_type digest_data key w).1 =
        Outcome.thrown
          { message := "cannot sign message digest with the specified private RSA key",
            error_string := some (L.ERR_error_string
              (L.RSA_sign (L.EVP_MD_type md) digest_data (unsigned_int digest_data.length)
                (List.replicate key.get_size_in_bytes 0) key.impl w.err_queue).err_queue) } ∧
      ∀ sig : List Byte,
        (sign_with_rsa_private_key L digest_type digest_data key w).1 ≠ Outcome.returned sig := by
  have h : (sign_with_rsa_private_key L digest_type digest_data key w).1 =
      Outcome.thrown
        { message := "cannot sign message digest with the specified private RSA key",
          error_string := some (L.ERR_error_string
            (L.RSA_sign (L.EVP_MD_type md) digest_data (unsigned_int digest_data.length)
              (List.replicate key.get_size_in_bytes 0) key.impl w.err_queue).err_queue) } := by
    simp [sign_with_rsa_private_key, hkey, hpriv, hmd, invoke_RSA_sign, hstatus,
      raise_with_error_string]
  refine ⟨h, ?_⟩
  intro sig hsig
  rw [h] at hsig
  cases hsig

/-- Witness of C6 on the stub library: a 3-byte digest makes the signing
primitive report 0. -/
theorem sign_primitive_failure_throws_witness :
    (sign_with_rsa_private_key stub_library "SHA256" [1, 2, 3] private_key clean_world).1 =
        Outcome.thrown
          { message := "cannot sign message digest with the specified private RSA key",
            error_string := some (stub_library.ERR_error_string
              (stub_library.RSA_sign (stub_library.EVP_MD_type 1) [1, 2, 3]
                (unsigned_int ([1, 2, 3] : List Byte).length)
                (List.replicate private_key.get_size_in_bytes 0) private_key.impl
                clean_world.err_queue).err_queue) } ∧
      ∀ sig : List Byte,
        (sign_with_rsa_private_key stub_library "SHA256" [1, 2, 3] private_key clean_world).1
          ≠ Outcome.returned sig :=
  sign_primitive_failure_throws stub_library "SHA256" [1, 2, 3] private_key clean_world 1
    (by decide) (by decide) (by decide) (by decide)

/-- C7: with a library that honours the output-buffer contract, every
successful signing call returns a byte string whose length is exactly the
signature length the primitive reported and whose content is exactly the first
that-many bytes of the buffer as the primitive left it; nothing of the initial
zero-filled allocation of key size follows. -/
theorem sign_returns_reported_bytes (L : Library) (hL : RSA_sign_within_buffer L)
    (digest_type : String) (digest_data : List Byte) (key : rsa_key) (w : World)
    (sig : List Byte) (w1 : World)
    (hret : sign_with_rsa_private_key L digest_type digest_data key w =
      (Outcome.returned sig, w1)) :
    ∃ md, L.EVP_get_digestbyname (c_str digest_type) = some md ∧
      sig.length = unsigned_int (L.RSA_sign (L.EVP_MD_type md) digest_data
        (unsigned_int digest_data.length)
        (List.replicate key.get_size_in_bytes 0) key.impl w.err_queue).siglen ∧
      sig = (L.RSA_sign (L.EVP_MD_type md) digest_data (unsigned_int digest_data.length)
          (List.replicate key.get_size_in_bytes 0) key.impl w.err_queue).sigret.take
        (unsigned_int (L.RSA_sign (L.EVP_MD_type md) digest_data
          (unsigned_int digest_data.length)
          (List.replicate key.get_size_in_bytes 0) key.impl w.err_queue).siglen) := by
  obtain ⟨_, _, md, hmd, hst, hsig, _⟩ :=
    sign_returned_inv L digest_type digest_data key w sig w1 hret
  obtain ⟨hlen, hle⟩ := hL _ _ _ _ _ _ hst
  refine ⟨md, hmd, ?_, ?_⟩
  · rw [hsig, length_resize]
  · rw [hsig]
    exact resize_of_le _ _ (by rw [hlen]; exact hle)

/-- C8: with a library that honours the output-buffer contract, the signature
returned by a successful signing call is never longer than
`key.get_size_in_bytes()`. -/
theorem sign_length_le_key_size (L : Library) (hL : RSA_sign_within_buffer L)
    (digest_type : String) (digest_data : List Byte) (key : rsa_key) (w : World)
    (sig : List Byte) (w1 : World)
    (hret : sign_with_rsa_private_key L digest_type digest_data key w =
      (Outcome.returned sig, w1)) :
    sig.length ≤ key.get_size_in_bytes := by
  obtain ⟨_, _, md, _, hst, hsig, _⟩ :=
    sign_returned_inv L digest_type digest_data key w sig w1 hret
  obtain ⟨_, hle⟩ := hL _ _ _ _ _ _ hst
  rw [hsig, length_resize]
  simpa using hle

/-- Witness of C7 on the stub library: the 4-byte key gives a 4-byte signature,
the four bytes the primitive wrote. -/
theorem sign_returns_reported_bytes_witness :
    ∃ md, stub_library.EVP_get_digestbyname (c_str "SHA256") = some md ∧
      ([185, 185, 185, 185] : List Byte).length =
        unsigned_int (stub_library.RSA_sign (stub_library.EVP_MD_type md) sample_digest
          (unsigned_int sample_digest.length)
          (List.replicate private_key.get_size_in_bytes 0) private_key.impl
          clean_world.err_queue).siglen ∧
      ([185, 185, 185, 185] : List Byte) =
        (stub_library.RSA_sign (stub_library.EVP_MD_type md) sample_digest
          (unsigned_int sample_digest.length)
          (List.replicate private_key.get_size_in_bytes 0) private_key.impl
          clean_world.err_queue).sigret.take
        (unsigned_int (stub_library.RSA_sign (stub_library.EVP_MD_type md) sample_digest
          (unsigned_int sample_digest.length)
          (List.replicate private_key.get_size_in_bytes 0) private_key.impl
          clean_world.err_queue).siglen) :=
  sign_returns_reported_bytes stub_library stub_library_within_buffer "SHA256" sample_digest
    private_key clean_world [185, 185, 185, 185]
    { err_queue := [], calls := [primitive_call.RSA_sign] } (by decide)

/-- Witness of C8 on the stub library: the signature made with the 4-byte key
has at most 4 bytes. -/
theorem sign_length_le_key_size_witness :
    ([185, 185, 185, 185] : List Byte).length ≤ private_key.get_size_in_bytes :=
  sign_length_le_key_size stub_library stub_library_within_buffer "SHA256" sample_digest
    private_key dirty_world [185, 185, 185, 185]
    { err_queue := [5], calls := [primitive_call.RSA_sign] } (by decide)

/-- C1: with a library whose verification primitive reports failure as 0, as
its contract says, every call of `verify_with_rsa_public_key` that returns false
leaves the error queue empty, whatever the key, digest, signature and digest
name, whatever the queue held before the call and whatever the primitive pushed
onto it. -/
theorem verify_false_leaves_queue_empty (L : Library) (hL : RSA_verify_reports_0_or_1 L)
    (digest_type : String) (digest_data signature_data : List Byte) (key : rsa_key)
    (w w1 : World)
    (hret : verify_with_rsa_public_key L digest_type digest_data signature_data key w =
      (Outcome.returned false, w1)) :
    w1.err_queue = [] := by
  obtain ⟨_, md, _, hb, hq, _⟩ :=
    verify_returned_inv L digest_type digest_data signature_data key w false w1 hret
  rcases hL (L.EVP_MD_type md) digest_data (unsigned_int digest_data.length) signature_data
    (unsigned_int signature_data.length) key.impl w.err_queue with h0 | h1
  · rw [hq, if_pos h0]
  · rw [h1] at hb
    simp at hb

/-- Witness of C1 on the stub library: a wrong signature, checked on a queue
that already holds an entry; the primitive pushes a second entry and reports 0,
the call returns false and the queue is empty. -/
theorem verify_false_leaves_queue_empty_witness :
    dirty_world.err_queue = [5] ∧
      verify_with_rsa_public_key stub_library "SHA256" sample_digest [1, 2, 3, 4] public_key
        dirty_world =
        (Outcome.returned false, { err_queue := [], calls := [primitive_call.RSA_verify] }) ∧
      ({ err_queue := [], calls := [primitive_call.RSA_verify] } : World).err_queue = [] :=
  ⟨by decide, by decide,
    verify_false_leaves_queue_empty stub_library stub_library_verify_0_or_1 "SHA256"
      sample_digest [1, 2, 3, 4] public_key dirty_world
      { err_queue := [], calls := [primitive_call.RSA_verify] } (by decide)⟩

/-- C9, as stated, fails: a signing call that returns a signature and a
verification call that returns true both leave in the error queue the entry it
held before the call. -/
theorem completed_call_queue_counterexample :
    (sign_with_rsa_private_key stub_library "SHA256" sample_digest private_key
        dirty_world).1 = Outcome.returned [185, 185, 185, 185] ∧
      (sign_with_rsa_private_key stub_library "SHA256" sample_digest private_key
        dirty_world).2.err_queue = [5] ∧
      (verify_with_rsa_public_key stub_library "SHA256" sample_digest [185, 185, 185, 185]
        public_key dirty_world).1 = Outcome.returned true ∧
      (verify_with_rsa_public_key stub_library "SHA256" sample_digest [185, 185, 185, 185]
        public_key dirty_world).2.err_queue = [5] := by
  decide

/-- C9, amended: with a library whose verification primitive reports failure as
0, the error queue is empty after every verification call that returns false,
whatever the queue held before the call and whatever the primitive left on it;
after a signing call that returns a signature and after a verification call that
returns true, the queue is exactly the queue the library primitive left. -/
theorem completed_call_queue (L : Library) (hL : RSA_verify_reports_0_or_1 L)
    (digest_type : String) (digest_data signature_data : List Byte) (key : rsa_key)
    (w : World) (md : Nat)
    (hmd : L.EVP_get_digestbyname (c_str digest_type) = some md) :
    (∀ (sig : List Byte) (w1 : World),
        sign_with_rsa_private_key L digest_type digest_data key w =
          (Outcome.returned sig, w1) →
        w1.err_queue =
          (L.RSA_sign (L.EVP_MD_type md) digest_data (unsigned_int digest_data.length)
            (List.replicate key.get_size_in_bytes 0) key.impl w.err_queue).err_queue) ∧
      (∀ w1 : World,
        verify_with_rsa_public_key L digest_type digest_data signature_data key w =
          (Outcome.returned true, w1) →
        w1.err_queue =
          (L.RSA_verify (L.EVP_MD_type md) digest_data (unsigned_int digest_data.length)
            signature_data (unsigned_int signature_data.length) key.impl
            w.err_queue).err_queue) ∧
      (∀ w1 : World,
        verify_with_rsa_public_key L digest_type digest_data signature_data key w =
          (Outcome.returned false, w1) →
        w1.err_queue = []) := by
  refine ⟨?_, ?_, ?_⟩
  · intro sig w1 hret
    obtain ⟨_, _, md2, hmd2, _, _, hw⟩ :=
      sign_returned_inv L digest_type digest_data key w sig w1 hret
    rw [hmd] at hmd2
    cases hmd2
    rw [hw]
  · intro w1 hret
    obtain ⟨_, md2, hmd2, hb, hq, _⟩ :=
      verify_returned_inv L digest_type digest_data signature_data key w true w1 hret
    rw [hmd] at hmd2
    cases hmd2
    have h1 : (L.RSA_verify (L.EVP_MD_type md) digest_data
        (unsigned_int digest_data.length) signature_data
        (unsigned_int signature_data.length) key.impl w.err_queue).status = 1 := by
      simpa using hb.symm
    rw [hq, h1]
    simp
  · intro w1 hret
    obtain ⟨_, md2, hmd2, hb, hq, _⟩ :=
      verify_returned_inv L digest_type digest_data signature_data key w false w1 hret
    rcases hL (L.EVP_MD_type md2) digest_data (unsigned_int digest_data.length)
      signature_data (unsigned_int signature_data.length) key.impl w.err_queue with h0 | h1
    · rw [hq, if_pos h0]
    · rw [h1] at hb
      simp at hb

/-- Witness of amended C9 on the stub library, starting from a queue that holds
one entry: a signing call that returns leaves that entry, a verification that
returns false leaves nothing. -/
theorem completed_call_queue_witness :
    ({ err_queue := [5], calls := [primitive_call.RSA_sign] } : World).err_queue =
        (stub_library.RSA_sign (stub_library.EVP_MD_type 1) sample_digest
          (unsigned_int sample_digest.length)
          (List.replicate private_key.get_size_in_bytes 0) private_key.impl
          dirty_world.err_queue).err_queue ∧
      ({ err_queue := [], calls := [primitive_call.RSA_verify] } : World).err_queue = [] :=
  ⟨(completed_call_queue stub_library stub_library_verify_0_or_1 "SHA256" sample_digest
      [1, 2, 3, 4] private_key dirty_world 1 (by decide)).1 [185, 185, 185, 185]
      { err_queue := [5], calls := [primitive_call.RSA_sign] } (by decide),
   (completed_call_queue stub_library stub_library_verify_0_or_1 "SHA256" sample_digest
      [1, 2, 3, 4] private_key dirty_world 1 (by decide)).2.2
      { err_queue := [], calls := [primitive_call.RSA_verify] } (by decide)⟩

end opensslpp
